import Mathlib

/-!
Shallow embedding of `harbinger.py` (a Docker-events-to-Slack monitor) and
proofs about the properties of its event pipeline: compose-label extraction,
log-line formatting, payload construction, delivery retries and the
supervisor loop.
-/

namespace Harbinger

/-- Python truthiness of an optional string value: `None` and the empty
string are falsy, every other string is truthy. -/
def pyTruthy : Option String → Bool
  | none => false
  | some s => s != ""

/-- Python `a or b` on optional string values: yields `a` when `a` is
truthy, otherwise `b`. -/
def pyOr (a b : Option String) : Option String :=
  if pyTruthy a then a else b

/-- Python `str(x)` applied to an optional string: `None` renders as
"None". -/
def pyStr : Option String → String
  | none => "None"
  | some s => s

/-- Python `s.split('/')[-1]` on the character list: the suffix after the
last '/', or the whole list when no '/' occurs. -/
def lastSegmentL (l : List Char) : List Char :=
  (l.reverse.takeWhile (fun c => c != '/')).reverse

/-- Python `s.split('/')[-1]`. -/
def lastSegment (s : String) : String := ⟨lastSegmentL s.data⟩

/-- A Python dict with string keys and string values, as an association
list; keys are unique, `lookup` returns the first binding. -/
abbrev Labels := List (String × String)

/-- Python `dict.get(k)`: the value, or `None` when the key is absent. -/
def dictGet (d : Labels) (k : String) : Option String := d.lookup k

/-- Python `dict.get(k, default)` for a string default. -/
def dictGetD (d : Labels) (k : String) (dflt : String) : String :=
  (d.lookup k).getD dflt

/-- Python `needle.isPrefixOf`-style check on strings via character
lists (`str.startswith`). -/
def strStartsWith (s pre : String) : Bool := pre.data.isPrefixOf s.data

/-- Python `needle in hay` for strings: substring containment. -/
def strContainsL (hay needle : List Char) : Bool :=
  match hay with
  | [] => needle.isEmpty
  | _ :: t => needle.isPrefixOf hay || strContainsL t needle

/-- Python `needle in hay` for strings. -/
def strContains (hay needle : String) : Bool := strContainsL hay.data needle.data

/-- A container-attribute dict as consumed by `_get_compose_info` and
`_is_compose_operation`: plain string entries, plus the dict-valued
"Labels" entry when present (`labelsDict = none` models an absent
"Labels" key, for which `.get` falls back to an empty dict). -/
structure Attrs where
  entries : Labels
  labelsDict : Option Labels

/-- `attributes.get('Labels', ...)` with the empty dict as default
(src line 143 and 454). -/
def composeLabels (a : Attrs) : Labels := a.labelsDict.getD []

/-- `_get_compose_info` (src lines 133-157): extract the compose
`(project, service)` pair from the "Labels" entry through Python `or`
chains; the working-directory fallback takes the last path segment. -/
def get_compose_info (a : Attrs) : Option String × Option String :=
  let labels := composeLabels a
  ( pyOr (dictGet labels "com.docker.compose.project")
      (pyOr (some (lastSegment
          (dictGetD labels "com.docker.compose.project.working_dir" "")))
        (dictGet labels "com.docker.compose.project.name")),
    pyOr (dictGet labels "com.docker.compose.service")
      (dictGet labels "com.docker.compose.service.name") )

/-- `_format_container_name` (src lines 159-174): "project/service" when
both are truthy, else the "name" attribute (default "Unknown"). -/
def format_container_name (a : Attrs) : String :=
  let info := get_compose_info a
  let containerName := dictGetD a.entries "name" "Unknown"
  if pyTruthy info.1 && pyTruthy info.2 then
    pyStr info.1 ++ "/" ++ pyStr info.2
  else containerName

/-- `_is_compose_operation` (src lines 444-455): any key of the "Labels"
entry starts with the compose prefix.  In the source this `def` is
accidentally nested inside the body of `monitor_containers`, after its
loop, so it never becomes a method of the class; the call site
`self._is_compose_operation(attributes)` (src line 426) raises
`AttributeError` instead of invoking it. -/
def is_compose_operation (a : Attrs) : Bool :=
  (composeLabels a).any (fun kv => strStartsWith kv.1 "com.docker.compose")

/-! ### Timestamp parsing (`datetime.strptime` on '%Y-%m-%dT%H:%M:%SZ') -/

/-- Numeric value of a decimal digit character. -/
def digitVal (c : Char) : Nat := c.toNat - 48

/-- One field of CPython `_strptime`'s compiled pattern for a bounded
two-digit directive (for example `%m` compiles to the regex alternation
matching two digits in range, else one digit in range).  Consumes two
digits when both are present (the one-digit fallback would then require
the following literal, always a non-digit, to match a digit, so it can
never fire), else one. -/
def parse2or1 (lo2 hi2 lo1 hi1 : Nat) : List Char → Option (Nat × List Char)
  | c1 :: c2 :: rest =>
    if c1.isDigit then
      if c2.isDigit then
        let v := digitVal c1 * 10 + digitVal c2
        if lo2 ≤ v ∧ v ≤ hi2 then some (v, rest) else none
      else
        let v := digitVal c1
        if lo1 ≤ v ∧ v ≤ hi1 then some (v, c2 :: rest) else none
    else none
  | [c1] =>
    if c1.isDigit then
      let v := digitVal c1
      if lo1 ≤ v ∧ v ≤ hi1 then some (v, [])
      else none
    else none
  | [] => none

/-- `%Y`: exactly four digits. -/
def parse4digits : List Char → Option (Nat × List Char)
  | a :: b :: c :: d :: rest =>
    if a.isDigit ∧ b.isDigit ∧ c.isDigit ∧ d.isDigit then
      some (digitVal a * 1000 + digitVal b * 100 + digitVal c * 10 + digitVal d
        , rest)
    else none
  | _ => none

/-- A literal character of the format string. -/
def expectChar (c : Char) : List Char → Option (List Char)
  | x :: rest => if x = c then some rest else none
  | [] => none

/-- The parsed calendar time. -/
structure DateTimeRec where
  year : Nat
  month : Nat
  day : Nat
  hour : Nat
  minute : Nat
  second : Nat
deriving DecidableEq

/-- Gregorian leap-year rule, as used by `datetime`. -/
def isLeapYear (y : Nat) : Bool := (y % 4 = 0 ∧ y % 100 ≠ 0) ∨ y % 400 = 0

/-- Days in a month, as validated by the `datetime` constructor. -/
def daysInMonth (y m : Nat) : Nat :=
  if m = 2 then (if isLeapYear y then 29 else 28)
  else if m = 4 ∨ m = 6 ∨ m = 9 ∨ m = 11 then 30
  else 31

/-- `datetime.strptime(s, '%Y-%m-%dT%H:%M:%SZ')` (src lines 207-210):
field-by-field match of CPython `_strptime`'s compiled pattern, the
whole-string requirement (no unconverted data), and the range checks of
the `datetime` constructor (year at least 1, real calendar day, second
at most 59).  Literal characters are matched exactly; CPython would
additionally accept lowercase 't'/'z' (its pattern is case-insensitive),
which no claim below depends on. -/
def strptimeTsZ (l : List Char) : Option DateTimeRec :=
  (parse4digits l).bind fun py =>
  (expectChar '-' py.2).bind fun r2 =>
  (parse2or1 1 12 1 9 r2).bind fun pm =>
  (expectChar '-' pm.2).bind fun r4 =>
  (parse2or1 1 31 1 9 r4).bind fun pd =>
  (expectChar 'T' pd.2).bind fun r6 =>
  (parse2or1 0 23 0 9 r6).bind fun ph =>
  (expectChar ':' ph.2).bind fun r8 =>
  (parse2or1 0 59 0 9 r8).bind fun pmi =>
  (expectChar ':' pmi.2).bind fun r10 =>
  (parse2or1 0 61 0 9 r10).bind fun ps =>
  (expectChar 'Z' ps.2).bind fun rEnd =>
  match rEnd with
  | [] =>
    if 1 ≤ py.1 ∧ pd.1 ≤ daysInMonth py.1 pm.1 ∧ ps.1 ≤ 59 then
      some ⟨py.1, pm.1, pd.1, ph.1, pmi.1, ps.1⟩
    else none
  | _ => none

/-- Decimal digit character for `n % 10`. -/
def dchar (n : Nat) : Char := Char.ofNat (48 + n % 10)

/-- Two-digit zero-padded rendering (values below 100). -/
def pad2 (n : Nat) : List Char := [dchar (n / 10), dchar n]

/-- Four-digit zero-padded rendering (values below 10000). -/
def pad4 (n : Nat) : List Char :=
  [dchar (n / 1000), dchar (n / 100), dchar (n / 10), dchar n]

/-- `.strftime('%Y-%m-%d %H:%M:%S')` (src line 210). -/
def strftimeHuman (t : DateTimeRec) : List Char :=
  pad4 t.year ++ '-' :: pad2 t.month ++ '-' :: pad2 t.day ++
    ' ' :: pad2 t.hour ++ ':' :: pad2 t.minute ++ ':' :: pad2 t.second

/-! ### Log-line formatting (`get_container_logs`, src lines 176-229) -/

/-- Python `line.split(' ', 1)`: `none` when the line has no space
(the single-part case), else the part before the first space and the
remainder after it. -/
def splitFirstSpace : List Char → Option (List Char × List Char)
  | [] => none
  | c :: rest =>
    if c = ' ' then some ([], rest)
    else
      match splitFirstSpace rest with
      | none => none
      | some pr => some (c :: pr.1, pr.2)

/-- Python `timestamp_str.split('.')[0]` (src line 204): the prefix
before the first '.'. -/
def truncAtDot (l : List Char) : List Char := l.takeWhile (fun c => c != '.')

/-- The per-line body of the formatting loop (src lines 196-221): split
at the first space; when two parts exist, truncate the timestamp at the
first '.', append 'Z', and try to parse; on success emit
"timestamp | message", on any failure keep the original line. -/
def formatLogLineL (line : List Char) : List Char :=
  match splitFirstSpace line with
  | none => line
  | some pr =>
    let tsZ := truncAtDot pr.1 ++ ['Z']
    match strptimeTsZ tsZ with
    | none => line
    | some t => strftimeHuman t ++ ' ' :: '|' :: ' ' :: pr.2

/-- String version of `formatLogLineL`. -/
def formatLogLine (s : String) : String := ⟨formatLogLineL s.data⟩

/-- The formatting loop over a list of lines: one output per input. -/
def formatLogs (lines : List String) : List String := lines.map formatLogLine

/-- Python `s.strip()`. -/
def pyStrip (s : String) : String :=
  ⟨((s.data.dropWhile Char.isWhitespace).reverse.dropWhile
      Char.isWhitespace).reverse⟩

/-- Python `s.split(c)` for a one-character separator: `""` yields
`[""]`, separators delimit possibly-empty fields. -/
def splitOnCharL (c : Char) : List Char → List (List Char)
  | [] => [[]]
  | x :: xs =>
    if x = c then [] :: splitOnCharL c xs
    else
      match splitOnCharL c xs with
      | [] => [[x]]
      | h :: t => (x :: h) :: t

/-- Python `l[-tail:]`: the last `tail` elements — except that `l[-0:]`
is the whole list. -/
def takeLastPy (n : Nat) (l : List String) : List String :=
  if n = 0 then l else l.drop (l.length - n)

/-- The outcome of `self.client.containers.get(id)` followed by
`container.logs(...)`: the decoded log text, a `NotFound` error, or any
other exception (with its message). -/
inductive LogsFetch where
  | ok (raw : String)
  | notFound
  | fetchError (msg : String)

/-- `get_container_logs` (src lines 176-229): fail-soft log fetch.  An
absent container yields the not-found string, any other error yields the
error string, empty logs yield the placeholder "No logs available", and
otherwise the last `tail` lines are each formatted by the per-line
loop. -/
def get_container_logs (tail : Nat) (fetch : LogsFetch) : String :=
  match fetch with
  | .notFound => "Container not found - may have been removed"
  | .fetchError m => "Error retrieving logs: " ++ m
  | .ok raw =>
    let logs := pyStrip raw
    if logs = "" then "No logs available"
    else
      let lines := (splitOnCharL '\n' logs.data).map fun l => (⟨l⟩ : String)
      String.intercalate "\n" ((takeLastPy tail lines).map formatLogLine)

/-! ### Container details (`_get_container_details`, src lines 231-259) -/

/-- The fields of `container.attrs` that `_get_container_details` reads:
`Name`, `Config.Image`, `Config` (passed to `_get_compose_info`),
`Created`, `State`, `HostConfig.NetworkMode`. -/
structure InspectData where
  name : String
  image : String
  config : Attrs
  created : String
  state : String
  networkMode : String

/-- The dict `_get_container_details` builds on success. -/
structure DetailsRec where
  name : String
  image : String
  project : Option String
  service : Option String
  compose : Bool
  created : String
  state : String
  networkMode : String

/-- Python `s.lstrip('/')`. -/
def lstripSlash (s : String) : String := ⟨s.data.dropWhile (fun c => c = '/')⟩

/-- `_get_container_details` (src lines 231-259): on any failure of the
inspection (container removed, or anything else) the `except` clause
logs and returns the empty dict, modelled as `none`; on success it
builds the details dict, with `compose = bool(project and service)`. -/
def get_container_details : Except String InspectData → Option DetailsRec
  | .error _ => none
  | .ok i =>
    let info := get_compose_info i.config
    some
      { name := lstripSlash i.name
        image := i.image
        project := info.1
        service := info.2
        compose := pyTruthy info.1 && pyTruthy info.2
        created := i.created
        state := i.state
        networkMode := i.networkMode }

/-! ### Message formatting (`format_status_message` and
`_create_slack_payload`, src lines 261-347) -/

/-- `format_status_message` (src lines 261-276): annotate a status text
with its exit code when one is present and the text contains "EXIT";
code "0" renders as "(Clean exit)", any other code as
"(Error exit code: ...)".  This method is never called by the rest of
the program. -/
def format_status_message (statusText : String) (exitCode : Option String) :
    String :=
  match exitCode with
  | some ec =>
    if strContains statusText "EXIT" then
      if ec = "0" then statusText ++ " (Clean exit)"
      else statusText ++ " (Error exit code: " ++ ec ++ ")"
    else statusText
  | none => statusText

/-- The status table of the reachable `_create_slack_payload`
(src lines 285-292). -/
def statusMapping : List (String × String × String) :=
  [ ("started", "START", "✅")
  , ("exited", "EXITED", "❌")
  , ("killed", "KILLED", "💀")
  , ("restart", "RESTART", "🔄")
  , ("start", "START", "✅")
  , ("stopped", "STOPPED", "⏹️") ]

/-- Python `s.upper()` (ASCII). -/
def strUpper (s : String) : String := s.toUpper

/-- `status_mapping.get(status, (status.upper(), BULLET))`
(src line 294). -/
def lookupStatus (status : String) : String × String :=
  ((statusMapping.lookup status).getD (strUpper status, "•"))

/-- The color table of the reachable `_create_slack_payload`
(src lines 328-334); lookup falls back to "#cccccc". -/
def colorsTable : List (String × String) :=
  [ ("START", "#36a64f")
  , ("EXITED", "#dc3545")
  , ("KILLED", "#ff6b6b")
  , ("RESTART", "#4dabf7")
  , ("STOPPED", "#ffd93d") ]

/-- The status line's display text (src lines 301-303): any present
exit code is rendered as "(Exit Code: ...)" when the status text
contains "EXIT"; `format_status_message` is not consulted. -/
def payloadStatusDisplay (statusText : String) (exitCode : Option String) :
    String :=
  match exitCode with
  | some ec =>
    if strContains statusText "EXIT" then
      statusText ++ " (Exit Code: " ++ ec ++ ")"
    else statusText
  | none => statusText

/-- Process-wide configuration (hostname, environment label, log-tail
size, retry interval in seconds, maximum delivery attempts). -/
structure Config where
  hostname : String
  environment : String
  logLines : Nat
  retryInterval : Nat
  maxRetries : Nat

/-- The log string used by the logs section (src line 322): fetched only
when a container id is present, else the placeholder. -/
def payloadLogsString (cfg : Config) (containerId : Option String)
    (fetch : LogsFetch) : String :=
  match containerId with
  | some _ => get_container_logs cfg.logLines fetch
  | none => "No logs available"

/-- The logs section appended to the message parts (src lines 319-325):
present exactly when the status text contains "EXIT" or equals
"KILLED", and the fetched string is non-empty and differs from the
exact placeholder "No logs available". -/
def payloadLogsSection (cfg : Config) (statusText : String)
    (containerId : Option String) (fetch : LogsFetch) : List String :=
  if strContains statusText "EXIT" || statusText = "KILLED" then
    let logs := payloadLogsString cfg containerId fetch
    if logs != "" && logs != "No logs available" then
      ["\n*Recent Logs:*", "```" ++ logs ++ "```"]
    else []
  else []

/-- The ordered `message_parts` list of `_create_slack_payload`
(src lines 309-325): service line, status line, host, environment, then
the image line when the details carry a truthy image, then the logs
section. -/
def buildMessageParts (cfg : Config) (containerName status : String)
    (containerId : Option String) (exitCode : Option String)
    (details : Option DetailsRec) (fetch : LogsFetch) : List String :=
  let st := lookupStatus status
  let isCompose := (details.map (fun d => d.compose)).getD false
  let projectDisplay :=
    match details with
    | none => "Unknown"
    | some d => pyStr d.project
  let serviceDisplay :=
    match details with
    | none => "Unknown"
    | some d => pyStr d.service
  let serviceLine :=
    if isCompose then
      "*Service:* `" ++ projectDisplay ++ "/" ++ serviceDisplay ++ "`"
    else "*Service:* `" ++ containerName ++ "`"
  let base :=
    [ serviceLine
    , "*Status:* `" ++ payloadStatusDisplay st.1 exitCode ++ "`"
    , "*Host:* `" ++ cfg.hostname ++ "`"
    , "*Environment:* `" ++ cfg.environment ++ "`" ]
  let withImage :=
    base ++
      (match details with
       | some d => if d.image != "" then ["*Image:* " ++ d.image] else []
       | none => [])
  withImage ++ payloadLogsSection cfg st.1 containerId fetch

/-- The single Slack attachment built by `_create_slack_payload`
(src lines 336-347).  `ts` stands in for `datetime.now().timestamp()`,
an input of the pure model. -/
structure SlackPayload where
  color : String
  title : String
  text : String
  mrkdwnIn : List String
  footer : String
  ts : Int
deriving DecidableEq

/-- `_create_slack_payload` (src lines 278-347, the reachable top-level
version): look up the status text and icon, fetch details when a
container id is present (the inspection outcome is an input of the pure
model), choose the compose or container title, assemble the message
parts, and attach the color keyed by the status text. -/
def create_slack_payload (cfg : Config) (containerName status : String)
    (containerId : Option String) (exitCode : Option String)
    (inspectRes : Except String InspectData) (fetch : LogsFetch)
    (ts : Int) : SlackPayload :=
  let st := lookupStatus status
  let details : Option DetailsRec :=
    match containerId with
    | some _ => get_container_details inspectRes
    | none => none
  let isCompose := (details.map (fun d => d.compose)).getD false
  let title :=
    if isCompose then "Docker Compose Service Event " ++ st.2
    else "Docker Container Event " ++ st.2
  { color := (colorsTable.lookup st.1).getD "#cccccc"
    title := title
    text := String.intercalate "\n"
      (buildMessageParts cfg containerName status containerId exitCode
        details fetch)
    mrkdwnIn := ["text"]
    footer := "Docker Monitor - " ++ cfg.hostname
    ts := ts }

/-! ### Delivery with retries (`send_slack_message`, src lines 350-388) -/

/-- The outcome of one `requests.post` attempt: a 200 response, a
non-200 response (logged as a warning), or a transport-level
`RequestException` (logged as an error). -/
inductive AttemptOutcome where
  | ok
  | httpFail
  | transportFail
deriving DecidableEq

/-- An observable step of the retry loop: a post attempt (with its
index and outcome) or a sleep of the given number of seconds. -/
inductive TraceItem where
  | attempt (idx : Nat) (outcome : AttemptOutcome)
  | sleep (seconds : Nat)
deriving DecidableEq

/-- The terminal result of `send_slack_message`: a normal return after a
200 response, or the `SlackNotificationError` raised after the loop. -/
inductive SendResult where
  | success
  | raisedSlackError
deriving DecidableEq

/-- The retry loop of `send_slack_message` (src lines 367-388), with
`outcome i` the result of the i-th post: on a 200 return immediately;
otherwise log and, when attempts remain (`attempt < max_retries - 1`,
that is, `remaining > 0` after this attempt), sleep `retryInterval`
seconds; after the loop raise `SlackNotificationError`.  `a` is the
index of the current attempt, the second argument the number of
attempts still allowed. -/
def sendLoop (outcome : Nat → AttemptOutcome) (retryInterval : Nat) :
    Nat → Nat → List TraceItem × SendResult
  | _, 0 => ([], .raisedSlackError)
  | a, r + 1 =>
    if outcome a = .ok then ([.attempt a (outcome a)], .success)
    else
      (.attempt a (outcome a) ::
        (if 0 < r then
          TraceItem.sleep retryInterval ::
            (sendLoop outcome retryInterval (a + 1) r).1
         else (sendLoop outcome retryInterval (a + 1) r).1),
       (sendLoop outcome retryInterval (a + 1) r).2)

/-- `send_slack_message` (src lines 350-388): build the payload, then
run the retry loop for `maxRetries` attempts. -/
def send_slack_message (cfg : Config) (outcome : Nat → AttemptOutcome) :
    List TraceItem × SendResult :=
  sendLoop outcome cfg.retryInterval 0 cfg.maxRetries

/-- The trace the claims predict for `k` consecutive attempts starting
at index `a`: the attempts in order with exactly one sleep between
consecutive attempts and none after the last. -/
def attemptTrace (outcome : Nat → AttemptOutcome) (retryInterval : Nat) :
    Nat → Nat → List TraceItem
  | _, 0 => []
  | a, 1 => [.attempt a (outcome a)]
  | a, k + 2 =>
    .attempt a (outcome a) :: .sleep retryInterval ::
      attemptTrace outcome retryInterval (a + 1) (k + 1)

/-! ### The monitoring loop (`monitor_containers`, src lines 390-442) -/

/-- A raw Docker event as read from the subscription: the `Action`
verb, the actor id and the actor attribute dict. -/
structure RawEvent where
  action : String
  id : String
  attributes : Attrs

/-- The `action_mapping` table (src lines 398-407). -/
def actionMapping : List (String × String) :=
  [ ("die", "exited")
  , ("kill", "killed")
  , ("stop", "stopped")
  , ("start", "started")
  , ("restart", "restarted")
  , ("pause", "paused")
  , ("unpause", "unpaused")
  , ("destroy", "removed") ]

/-- An exception escaping the per-event `try` (src lines 421-434): the
`AttributeError` from the call to the missing `_is_compose_operation`
method, or any other error. -/
inductive PyError where
  | attributeError
  | otherError (msg : String)
deriving DecidableEq

/-- What happened to one event inside the subscription loop. -/
inductive StepResult where
  | notRelevant
  | suppressed
  | sent (payload : SlackPayload)
  | slackFailLogged
  | raised (e : PyError)
deriving DecidableEq

/-- Whether a step delivered a message. -/
def isSent : StepResult → Bool
  | .sent _ => true
  | _ => false

/-- The external outcomes consumed while dispatching one event: the
container inspection, the log fetch and the per-attempt delivery
responses. -/
structure EventCollab where
  inspectRes : Except String InspectData
  logsFetch : LogsFetch
  attempts : Nat → AttemptOutcome
  ts : Int

/-- The extracted exit code of a termination event:
`attributes.get('exitCode', 'Unknown')` (src line 424). -/
def eventExitCode (ev : RawEvent) : String :=
  dictGetD ev.attributes.entries "exitCode" "Unknown"

/-- The condition of src line 426 up to its fatal third conjunct: the
event is a `destroy` whose exit code is "0".  When it holds, the code
evaluates `self._is_compose_operation(attributes)`, which raises
`AttributeError`. -/
def destroyCleanExit (ev : RawEvent) : Bool :=
  ev.action = "destroy" && eventExitCode ev = "0"

/-- A call to `send_slack_message` under the per-event `try`
(src lines 429, 431, 433-434): a raised `SlackNotificationError` is
caught and logged. -/
def sendStep (cfg : Config) (collab : EventCollab) (payload : SlackPayload) :
    StepResult :=
  match (send_slack_message cfg collab.attempts).2 with
  | .success => .sent payload
  | .raisedSlackError => .slackFailLogged

/-- Dispatch of one recognized or unrecognized event by the body of the
subscription loop (src lines 411-434).  Unrecognized actions are
skipped.  For die/kill/destroy the exit code is extracted; for a
destroy with exit code "0" the suppression test
`self._is_compose_operation(attributes)` raises `AttributeError`
(see `is_compose_operation`), which escapes the per-event `try` (it
only catches `SlackNotificationError`).  Otherwise the message is built
and sent with retries; a `SlackNotificationError` is caught and
logged. -/
def dispatchEvent (cfg : Config) (collab : EventCollab) (ev : RawEvent) :
    StepResult :=
  match actionMapping.lookup ev.action with
  | none => .notRelevant
  | some mapped =>
    if ev.action = "die" || ev.action = "kill" || ev.action = "destroy" then
      if destroyCleanExit ev then
        .raised .attributeError
      else
        sendStep cfg collab
          (create_slack_payload cfg (format_container_name ev.attributes)
            mapped (some ev.id) (some (eventExitCode ev)) collab.inspectRes
            collab.logsFetch collab.ts)
    else
      sendStep cfg collab
        (create_slack_payload cfg (format_container_name ev.attributes)
          mapped (some ev.id) none collab.inspectRes collab.logsFetch
          collab.ts)

/-- One event of a subscription session, paired with the collaborator
outcomes its dispatch consumes. -/
structure EventRec where
  ev : RawEvent
  collab : EventCollab

/-- How a subscription session itself ends once every yielded event has
been consumed: the stream raises, or the shutdown signal arrives. -/
inductive SessionEnd where
  | streamError (msg : String)
  | interrupt
deriving DecidableEq

/-- One subscription session: the events the stream yields, then how
the stream ends. -/
structure Session where
  events : List EventRec
  ending : SessionEnd

/-- Consume the events of one session in order (src lines 411-434):
an exception escaping an event's dispatch aborts the iteration; a
caught `SlackNotificationError` or a normal dispatch continues with the
next event.  Returns the number of events dispatched and the escaping
error, if any. -/
def runEvents (cfg : Config) : List EventRec → Nat × Option PyError
  | [] => (0, none)
  | r :: rest =>
    match dispatchEvent cfg r.collab r.ev with
    | .raised e => (1, some e)
    | _ =>
      let next := runEvents cfg rest
      (next.1 + 1, next.2)

/-- How the supervisor leaves one session: into backoff (outer
`except Exception`, src lines 439-442) or out of the loop (the
`KeyboardInterrupt` handler's `break`, src lines 436-438). -/
inductive SessionOutcome where
  | errored (e : PyError)
  | interrupted
deriving DecidableEq

/-- How a session's own ending is classified by the outer handlers:
a stream exception lands in `except Exception`, the shutdown signal in
the `KeyboardInterrupt` handler. -/
def endingOutcome : SessionEnd → SessionOutcome
  | .streamError m => .errored (.otherError m)
  | .interrupt => .interrupted

/-- Run one session: an error escaping an event dispatch, or the
stream's own failure, lands in the outer `except Exception`; the
shutdown signal lands in the `KeyboardInterrupt` handler. -/
def runSession (cfg : Config) (s : Session) : Nat × SessionOutcome :=
  match runEvents cfg s.events with
  | (n, some e) => (n, .errored e)
  | (n, none) => (n, endingOutcome s.ending)

/-- The observable run of the `while True` supervisor loop: how many
subscriptions were opened, the backoff sleeps performed (in seconds,
in order), how many events were dispatched, and whether the loop was
exited by the shutdown signal (`false` means it is still looping,
waiting on the next session). -/
structure SupRun where
  sessionsOpened : Nat
  sleeps : List Nat
  eventsDispatched : Nat
  exited : Bool
deriving DecidableEq

/-- The supervisor loop (src lines 409-442) over a list of subscription
sessions: each opened session that fails transitions through backoff —
log, sleep `retryInterval` seconds, resubscribe; the shutdown signal
breaks out of the loop; an exhausted list means the loop is still
running. -/
def runSupervisor (cfg : Config) : List Session → SupRun
  | [] => ⟨0, [], 0, false⟩
  | s :: rest =>
    match runSession cfg s with
    | (n, .interrupted) => ⟨1, [], n, true⟩
    | (n, .errored _) =>
      let r := runSupervisor cfg rest
      ⟨r.sessionsOpened + 1, cfg.retryInterval :: r.sleeps,
        r.eventsDispatched + n, r.exited⟩

/-! ## Theorems -/

/-- A concrete configuration used by concrete instances below. -/
def cfgEx : Config := ⟨"host1", "production", 5, 10, 3⟩

/-- Concrete collaborator outcomes: the container is already gone, the
log fetch reports it missing, every delivery attempt succeeds. -/
def collabEx : EventCollab :=
  ⟨.error "404 Client Error: Not Found", .notFound, fun _ => .ok, 1700000000⟩

/-- `pyOr` keeps a truthy first operand. -/
theorem pyOr_pos {a b : Option String} (h : pyTruthy a = true) :
    pyOr a b = a := by
  simp [pyOr, h]

/-- `pyOr` falls through a falsy first operand. -/
theorem pyOr_neg {a b : Option String} (h : pyTruthy a = false) :
    pyOr a b = b := by
  simp [pyOr, h]

/-- C1: the spec's suppression rule (a `destroy` event with exit code
"0" and compose labels is suppressed; with exit code "1", or with exit
code "0" and no compose labels, a message is sent) does not hold of the
code: because `_is_compose_operation` is nested inside
`monitor_containers` instead of being a method, every `destroy` event
with exit code "0" — with or without compose labels — raises
`AttributeError` out of the per-event `try`, so no message is sent and
the suppression test never runs; only the exit-code-"1" case behaves as
claimed.  The last conjunct shows the shadowed `_is_compose_operation`
body itself would have detected the compose labels. -/
theorem C1_suppression_attribute_error :
    dispatchEvent cfgEx collabEx
        ⟨"destroy", "abc123", ⟨[("exitCode", "0"), ("name", "web1")], none⟩⟩
      = .raised .attributeError
  ∧ dispatchEvent cfgEx collabEx
        ⟨"destroy", "abc123", ⟨[("exitCode", "0"), ("name", "web1")],
          some [("com.docker.compose.project", "shop")]⟩⟩
      = .raised .attributeError
  ∧ isSent (dispatchEvent cfgEx collabEx
        ⟨"destroy", "abc123", ⟨[("exitCode", "1"), ("name", "web1")], none⟩⟩)
      = true
  ∧ is_compose_operation
        ⟨[("exitCode", "0")], some [("com.docker.compose.project", "shop")]⟩
      = true := by
  refine ⟨rfl, rfl, rfl, rfl⟩

/-- C2: `format_status_message` renders exit codes exactly as the claim
states (code "0" as "(Clean exit)", any other present code as
"(Error exit code: X)", absent code bare) — but the payload the
pipeline actually builds never calls it: `_create_slack_payload`
renders every present code, "0" included, as "(Exit Code: X)", shown
here both on the status-display helper and on a fully built message. -/
theorem C2_exit_code_rendering :
    format_status_message "EXITED" (some "0") = "EXITED (Clean exit)"
  ∧ (∀ ec : String, ec ≠ "0" →
      format_status_message "EXITED" (some ec)
        = "EXITED (Error exit code: " ++ ec ++ ")")
  ∧ format_status_message "EXITED" (some "1") = "EXITED (Error exit code: 1)"
  ∧ format_status_message "EXITED" (some "137")
      = "EXITED (Error exit code: 137)"
  ∧ format_status_message "EXITED" (some "Unknown")
      = "EXITED (Error exit code: Unknown)"
  ∧ format_status_message "EXITED" none = "EXITED"
  ∧ payloadStatusDisplay "EXITED" (some "0") = "EXITED (Exit Code: 0)"
  ∧ (create_slack_payload cfgEx "web1" "exited" (some "abc123") (some "0")
        (.error "container gone") (.ok "") 1700000000).text
      = "*Service:* `web1`\n*Status:* `EXITED (Exit Code: 0)`\n*Host:* `host1`\n*Environment:* `production`" := by
  refine ⟨rfl, ?_, rfl, rfl, rfl, rfl, rfl, rfl⟩
  intro ec hec
  simp only [format_status_message]
  rw [if_pos (by decide), if_neg hec,
    show ("EXITED" : String) ++ " (Error exit code: "
      = "EXITED (Error exit code: " by decide]

/-- Witness for the universally quantified conjunct of
`C2_exit_code_rendering` at the concrete code "137". -/
theorem C2_exit_code_rendering_witness :
    format_status_message "EXITED" (some "137")
      = "EXITED (Error exit code: 137)" :=
  C2_exit_code_rendering.2.1 "137" (by decide)

/-- C9: group-identity extraction follows the claimed priority chains
with first non-empty match winning: project is the explicit project
label when truthy, else the last path segment of the working-directory
label when non-empty, else the project-name label; service is the
explicit service label when truthy, else the service-name label.  In
particular a lone working-directory label "/srv/myapp" yields project
"myapp", and an explicit project label beats the working-directory
label. -/
theorem C9_compose_identity_priority :
    (∀ a : Attrs,
      pyTruthy (dictGet (composeLabels a) "com.docker.compose.project")
          = true →
        (get_compose_info a).1
          = dictGet (composeLabels a) "com.docker.compose.project")
  ∧ (∀ a : Attrs,
      pyTruthy (dictGet (composeLabels a) "com.docker.compose.project")
          = false →
        lastSegment (dictGetD (composeLabels a)
            "com.docker.compose.project.working_dir" "") ≠ "" →
        (get_compose_info a).1
          = some (lastSegment (dictGetD (composeLabels a)
              "com.docker.compose.project.working_dir" "")))
  ∧ (∀ a : Attrs,
      pyTruthy (dictGet (composeLabels a) "com.docker.compose.project")
          = false →
        lastSegment (dictGetD (composeLabels a)
            "com.docker.compose.project.working_dir" "") = "" →
        (get_compose_info a).1
          = dictGet (composeLabels a) "com.docker.compose.project.name")
  ∧ (∀ a : Attrs,
      pyTruthy (dictGet (composeLabels a) "com.docker.compose.service")
          = true →
        (get_compose_info a).2
          = dictGet (composeLabels a) "com.docker.compose.service")
  ∧ (∀ a : Attrs,
      pyTruthy (dictGet (composeLabels a) "com.docker.compose.service")
          = false →
        (get_compose_info a).2
          = dictGet (composeLabels a) "com.docker.compose.service.name")
  ∧ (get_compose_info
        ⟨[], some [("com.docker.compose.project.working_dir",
            "/srv/myapp")]⟩).1 = some "myapp"
  ∧ (get_compose_info
        ⟨[], some [("com.docker.compose.project", "explicit"),
          ("com.docker.compose.project.working_dir", "/srv/myapp")]⟩).1
      = some "explicit" := by
  refine ⟨?_, ?_, ?_, ?_, ?_, by decide, by decide⟩
  · intro a h
    exact pyOr_pos h
  · intro a h1 h2
    show pyOr _ (pyOr _ _) = _
    rw [pyOr_neg h1, pyOr_pos (by simpa [pyTruthy] using h2)]
  · intro a h1 h2
    show pyOr _ (pyOr _ _) = _
    rw [pyOr_neg h1, pyOr_neg (by simpa [pyTruthy] using h2)]
  · intro a h
    exact pyOr_pos h
  · intro a h
    exact pyOr_neg h

/-- Witness for `C9_compose_identity_priority` at concrete label sets:
the working-directory fallback and the service-name fallback. -/
theorem C9_compose_identity_priority_witness :
    (get_compose_info ⟨[], some [("com.docker.compose.project.working_dir",
        "/srv/shop")]⟩).1 = some "shop"
  ∧ (get_compose_info ⟨[], some [("com.docker.compose.service.name",
        "api")]⟩).2 = some "api" :=
  ⟨C9_compose_identity_priority.2.1
      ⟨[], some [("com.docker.compose.project.working_dir", "/srv/shop")]⟩
      (by decide) (by decide),
    C9_compose_identity_priority.2.2.2.2.1
      ⟨[], some [("com.docker.compose.service.name", "api")]⟩ (by decide)⟩

/-- Single-step unfolding of the retry loop. -/
theorem sendLoop_succ (outcome : Nat → AttemptOutcome) (t a r : Nat) :
    sendLoop outcome t a (r + 1)
      = if outcome a = .ok then ([.attempt a (outcome a)], .success)
        else
          (.attempt a (outcome a) ::
            (if 0 < r then
              TraceItem.sleep t :: (sendLoop outcome t (a + 1) r).1
             else (sendLoop outcome t (a + 1) r).1),
           (sendLoop outcome t (a + 1) r).2) := rfl

/-- Unfolding of the expected trace at two or more attempts. -/
theorem attemptTrace_two (outcome : Nat → AttemptOutcome) (t a k : Nat) :
    attemptTrace outcome t a (k + 2)
      = .attempt a (outcome a) :: .sleep t ::
          attemptTrace outcome t (a + 1) (k + 1) := rfl

/-- When every attempt in the window fails, the retry loop performs all
of them, sleeping between consecutive attempts and not after the last,
and ends by raising `SlackNotificationError`. -/
theorem sendLoop_sustained_fail (outcome : Nat → AttemptOutcome) (t : Nat) :
    ∀ (c a : Nat), (∀ i, a ≤ i → i < a + c → outcome i ≠ .ok) →
      sendLoop outcome t a c
        = (attemptTrace outcome t a c, .raisedSlackError) := by
  intro c
  induction c with
  | zero => intro a _; rfl
  | succ r ih =>
    intro a h
    have hne : outcome a ≠ .ok := h a (Nat.le_refl a) (by omega)
    have hih := ih (a + 1) (fun i h1 h2 => h i (by omega) (by omega))
    cases r with
    | zero =>
      rw [sendLoop_succ, if_neg hne]
      rfl
    | succ r' =>
      rw [sendLoop_succ, if_neg hne, if_pos (Nat.succ_pos r'), hih,
        attemptTrace_two]

/-- When the attempt at offset `k` from the start succeeds and every
earlier one fails, the retry loop performs exactly `k + 1` attempts
(with a sleep between consecutive ones), returns successfully, and
performs no further attempt or sleep. -/
theorem sendLoop_success (outcome : Nat → AttemptOutcome) (t : Nat) :
    ∀ (k a r : Nat), (∀ i, i < k → outcome (a + i) ≠ .ok) →
      outcome (a + k) = .ok → k < r →
      sendLoop outcome t a r = (attemptTrace outcome t a (k + 1), .success) := by
  intro k
  induction k with
  | zero =>
    intro a r _ hok hkr
    obtain ⟨r', rfl⟩ : ∃ r', r = r' + 1 := ⟨r - 1, by omega⟩
    rw [sendLoop_succ, if_pos (by simpa using hok)]
    rfl
  | succ k' ih =>
    intro a r hpre hok hkr
    obtain ⟨r', rfl⟩ : ∃ r', r = r' + 1 := ⟨r - 1, by omega⟩
    have hne : outcome a ≠ .ok := by simpa using hpre 0 (Nat.succ_pos k')
    have hih := ih (a + 1) r'
      (fun i hi => by
        have h1 := hpre (i + 1) (by omega)
        have e : a + (i + 1) = a + 1 + i := by omega
        rwa [e] at h1)
      (by
        have e : a + (k' + 1) = a + 1 + k' := by omega
        rwa [e] at hok)
      (by omega)
    rw [sendLoop_succ, if_neg hne, if_pos (by omega), hih, attemptTrace_two]

/-- C3: under a configuration with `maxRetries` attempts and a
`retryInterval`-second pause, delivery on sustained failure performs
exactly `maxRetries` attempts with exactly one sleep between
consecutive attempts and none after the last, raising
`SlackNotificationError` only after the final attempt; and a 200
response on attempt `k ≤ maxRetries` returns immediately after exactly
`k` attempts and `k - 1` sleeps, with no further attempt or sleep
(`attemptTrace` is the interleaved attempt/sleep schedule). -/
theorem C3_delivery_retries (cfg : Config) (outcome : Nat → AttemptOutcome) :
    ((∀ i, i < cfg.maxRetries → outcome i ≠ .ok) →
      send_slack_message cfg outcome
        = (attemptTrace outcome cfg.retryInterval 0 cfg.maxRetries,
            .raisedSlackError))
  ∧ (∀ k, 1 ≤ k → k ≤ cfg.maxRetries →
      (∀ i, i < k - 1 → outcome i ≠ .ok) → outcome (k - 1) = .ok →
      send_slack_message cfg outcome
        = (attemptTrace outcome cfg.retryInterval 0 k, .success)) := by
  constructor
  · intro h
    exact sendLoop_sustained_fail outcome cfg.retryInterval cfg.maxRetries 0
      (fun i _ h2 => h i (by omega))
  · intro k hk1 hkmax hpre hok
    have h := sendLoop_success outcome cfg.retryInterval (k - 1) 0
      cfg.maxRetries (fun i hi => by simpa using hpre i hi)
      (by simpa using hok) (by omega)
    rwa [show k - 1 + 1 = k by omega] at h

/-- Witness for `C3_delivery_retries`: three sustained failures raise
after the third attempt with two interleaved sleeps; a success on the
third attempt stops there. -/
theorem C3_delivery_retries_witness :
    send_slack_message cfgEx (fun _ => .httpFail)
      = ([.attempt 0 .httpFail, .sleep 10, .attempt 1 .httpFail, .sleep 10,
          .attempt 2 .httpFail], .raisedSlackError)
  ∧ send_slack_message cfgEx (fun i => if i < 2 then .transportFail else .ok)
      = ([.attempt 0 .transportFail, .sleep 10, .attempt 1 .transportFail,
          .sleep 10, .attempt 2 .ok], .success) := by
  constructor
  · exact (C3_delivery_retries cfgEx (fun _ => .httpFail)).1
      (fun i _ h => nomatch h)
  · exact (C3_delivery_retries cfgEx
        (fun i => if i < 2 then .transportFail else .ok)).2 3
      (by decide) (by decide)
      (fun i hi => by rw [if_pos hi]; exact fun h => nomatch h)
      (by decide)

/-- The send-and-catch step never lets an exception escape: its result
is a sent message or a caught-and-logged delivery failure. -/
theorem sendStep_ne_raised (cfg : Config) (collab : EventCollab)
    (payload : SlackPayload) (e : PyError) :
    sendStep cfg collab payload ≠ .raised e := by
  unfold sendStep
  cases (send_slack_message cfg collab.attempts).2 <;> simp

/-- Dispatch of an event that is not a clean-exit `destroy` never
raises: delivery failures are caught inside the loop body. -/
theorem dispatchEvent_not_raised (cfg : Config) (collab : EventCollab)
    (ev : RawEvent) (h : destroyCleanExit ev = false) (e : PyError) :
    dispatchEvent cfg collab ev ≠ .raised e := by
  unfold dispatchEvent
  cases actionMapping.lookup ev.action with
  | none => simp
  | some mapped =>
    simp only []
    split
    · rw [if_neg (by simp [h])]
      exact sendStep_ne_raised _ _ _ _
    · exact sendStep_ne_raised _ _ _ _

/-- With no clean-exit `destroy` among them, every event of a session
is dispatched, whatever each dispatch's delivery outcome. -/
theorem runEvents_all (cfg : Config) :
    ∀ evs : List EventRec, (∀ r ∈ evs, destroyCleanExit r.ev = false) →
      runEvents cfg evs = (evs.length, none) := by
  intro evs
  induction evs with
  | nil => intro _; rfl
  | cons r rest ih =>
    intro h
    have hr := h r (List.mem_cons_self r rest)
    have hrest := ih (fun x hx => h x (List.mem_cons_of_mem r hx))
    cases hd : dispatchEvent cfg r.collab r.ev
    case raised e => exact absurd hd (dispatchEvent_not_raised _ _ _ hr e)
    all_goals simp [runEvents, hd, hrest]

/-- C4: a `SlackNotificationError` raised while dispatching one event
is caught inside the subscription loop and processing continues with
the next event of the same subscription: for every session whose events
are not clean-exit `destroy`s (those abort through the separate
`AttributeError`, see C1), all events are dispatched — the per-event
delivery outcomes, embedded in each event's collaborator record and
quantified here, cannot shorten the count or terminate the loop — and
the session ends exactly as its stream ends. -/
theorem C4_delivery_failure_isolation (cfg : Config) (s : Session)
    (h : ∀ r ∈ s.events, destroyCleanExit r.ev = false) :
    runSession cfg s = (s.events.length, endingOutcome s.ending) := by
  unfold runSession
  rw [runEvents_all cfg s.events h]

/-- A concrete session: a failed delivery (every attempt rejected) on
the first event, a successful one on the second, then a stream error. -/
def sessEx : Session :=
  ⟨[⟨⟨"die", "c1", ⟨[("exitCode", "1"), ("name", "web1")], none⟩⟩,
      ⟨.error "404 Client Error: Not Found", .notFound,
        fun _ => .httpFail, 0⟩⟩,
    ⟨⟨"start", "c2", ⟨[("name", "web2")], none⟩⟩,
      ⟨.error "404 Client Error: Not Found", .notFound, fun _ => .ok, 0⟩⟩],
   .streamError "connection aborted"⟩

/-- Witness for `C4_delivery_failure_isolation`: both events of
`sessEx` are dispatched although the first event's delivery fails every
attempt, and the session ends with the stream's own error. -/
theorem C4_delivery_failure_isolation_witness :
    runSession cfgEx sessEx
      = (2, .errored (.otherError "connection aborted")) :=
  C4_delivery_failure_isolation cfgEx sessEx (by decide)

/-- The total number of events dispatched across a list of sessions. -/
def eventsDispatchedTotal (cfg : Config) (sessions : List Session) : Nat :=
  (sessions.map fun s => (runSession cfg s).1).sum

/-- C5: whenever reading the subscription raises anything but the
shutdown signal, the supervisor sleeps `retryInterval` seconds and
re-opens the subscription; for every number of stream failures the loop
is still running (one backoff sleep of `retryInterval` per failure, one
subscription opened per failure), and appending a session that ends in
the shutdown signal — after any number of failures — exits the loop
with no further sleep. -/
theorem C5_supervisor_backoff (cfg : Config) :
    (∀ sessions : List Session,
      (∀ s ∈ sessions, (runSession cfg s).2 ≠ .interrupted) →
      runSupervisor cfg sessions
        = ⟨sessions.length,
            List.replicate sessions.length cfg.retryInterval,
            eventsDispatchedTotal cfg sessions, false⟩)
  ∧ (∀ (sessions : List Session) (s : Session),
      (∀ x ∈ sessions, (runSession cfg x).2 ≠ .interrupted) →
      (runSession cfg s).2 = .interrupted →
      runSupervisor cfg (sessions ++ [s])
        = ⟨sessions.length + 1,
            List.replicate sessions.length cfg.retryInterval,
            eventsDispatchedTotal cfg sessions + (runSession cfg s).1,
            true⟩) := by
  have main : ∀ sessions : List Session,
      (∀ s ∈ sessions, (runSession cfg s).2 ≠ .interrupted) →
      runSupervisor cfg sessions
        = ⟨sessions.length,
            List.replicate sessions.length cfg.retryInterval,
            eventsDispatchedTotal cfg sessions, false⟩ := by
    intro sessions
    induction sessions with
    | nil => intro _; rfl
    | cons s rest ih =>
      intro h
      have hs := h s (List.mem_cons_self s rest)
      have hrest := ih (fun x hx => h x (List.mem_cons_of_mem s hx))
      rcases hr : runSession cfg s with ⟨n, o⟩
      cases o with
      | interrupted => exact absurd (by rw [hr]) hs
      | errored e =>
        simp only [runSupervisor, hr, hrest]
        simp [eventsDispatchedTotal, hr, List.replicate_succ,
          SupRun.mk.injEq, Nat.add_comm]
  refine ⟨main, ?_⟩
  intro sessions s h hint
  induction sessions with
  | nil =>
    rcases hr : runSession cfg s with ⟨n, o⟩
    rw [hr] at hint
    simp only at hint
    subst hint
    simp only [List.nil_append, runSupervisor, hr]
    simp [eventsDispatchedTotal, hr, SupRun.mk.injEq]
  | cons x rest ih =>
    have hx := h x (List.mem_cons_self x rest)
    have hrest := ih (fun y hy => h y (List.mem_cons_of_mem x hy))
    rcases hr : runSession cfg x with ⟨n, o⟩
    cases o with
    | interrupted => exact absurd (by rw [hr]) hx
    | errored e =>
      simp only [List.cons_append, runSupervisor, hr, hrest]
      simp [eventsDispatchedTotal, hr, hrest, List.replicate_succ,
        SupRun.mk.injEq]
      omega

/-- Witness for `C5_supervisor_backoff`: one stream failure leaves the
loop running after one 10-second backoff; a subsequent shutdown signal
exits it. -/
theorem C5_supervisor_backoff_witness :
    runSupervisor cfgEx [⟨[], .streamError "connection reset"⟩]
      = ⟨1, [10], 0, false⟩
  ∧ runSupervisor cfgEx
        [⟨[], .streamError "connection reset"⟩, ⟨[], .interrupt⟩]
      = ⟨2, [10], 0, true⟩ :=
  ⟨(C5_supervisor_backoff cfgEx).1 [⟨[], .streamError "connection reset"⟩]
      (by decide),
   (C5_supervisor_backoff cfgEx).2 [⟨[], .streamError "connection reset"⟩]
      ⟨[], .interrupt⟩ (by decide) (by decide)⟩

/-- C7: when fetching container details fails — container gone or any
other reason — the enrichment step returns the empty record instead of
raising, the payload is still built, does not depend on the failure
reason, falls back to the container-scoped title and to the service
line derived from the event attributes (the passed container name), and
a recognized, non-clean-destroy event with a failing inspection is
still dispatched without any exception escaping. -/
theorem C7_enrichment_fallback (cfg : Config) (name status : String)
    (cid : Option String) (exitCode : Option String) (e e' : String)
    (lf : LogsFetch) (ts : Int) :
    get_container_details (.error e) = none
  ∧ create_slack_payload cfg name status cid exitCode (.error e) lf ts
      = create_slack_payload cfg name status cid exitCode (.error e') lf ts
  ∧ (create_slack_payload cfg name status cid exitCode (.error e) lf
        ts).title
      = "Docker Container Event " ++ (lookupStatus status).2
  ∧ (buildMessageParts cfg name status cid exitCode none lf).head?
      = some ("*Service:* `" ++ name ++ "`")
  ∧ (∀ (collab : EventCollab) (ev : RawEvent) (mapped : String),
      collab.inspectRes = .error e →
      actionMapping.lookup ev.action = some mapped →
      destroyCleanExit ev = false →
      ∀ err, dispatchEvent cfg collab ev ≠ .raised err) := by
  refine ⟨rfl, ?_, ?_, rfl, ?_⟩
  · cases cid <;> rfl
  · cases cid <;> rfl
  · intro collab ev mapped _ _ h3 err
    exact dispatchEvent_not_raised cfg collab ev h3 err

/-- Witness for `C7_enrichment_fallback`: the enrichment of a removed
container degrades to the empty record, and a `die` event whose
inspection fails is dispatched without an escaping exception. -/
theorem C7_enrichment_fallback_witness :
    get_container_details
        (Except.error "404 Client Error: Not Found") = none
  ∧ dispatchEvent cfgEx collabEx
        ⟨"die", "abc123", ⟨[("exitCode", "1"), ("name", "web1")], none⟩⟩
      ≠ .raised .attributeError :=
  ⟨(C7_enrichment_fallback cfgEx "web1" "exited" (some "abc123")
      (some "1") "404 Client Error: Not Found" "other" .notFound 0).1,
   (C7_enrichment_fallback cfgEx "web1" "exited" (some "abc123")
      (some "1") "404 Client Error: Not Found" "other" .notFound 0).2.2.2.2
     collabEx ⟨"die", "abc123", ⟨[("exitCode", "1"), ("name", "web1")], none⟩⟩
     "exited" rfl (by decide) (by decide) .attributeError⟩

/-- C8 counterexample: the claim says every fail-soft outcome of the
log fetch (container-not-found, fetch errors) yields no log block, but
the code only excludes the exact placeholder "No logs available" — a
not-found fetch on a termination event produces a fenced log block
holding the not-found string. -/
theorem C8_fail_soft_block_counterexample :
    payloadLogsSection cfgEx "EXITED" (some "abc123") .notFound
      = ["\n*Recent Logs:*",
         "```Container not found - may have been removed```"]
  ∧ (create_slack_payload cfgEx "web1" "exited" (some "abc123")
        (some "137") (.error "gone") .notFound 1700000000).text
      = "*Service:* `web1`\n*Status:* `EXITED (Exit Code: 137)`\n*Host:* `host1`\n*Environment:* `production`\n\n*Recent Logs:*\n```Container not found - may have been removed```" :=
  ⟨rfl, rfl⟩

/-- C8 amended: a fenced log block is appended iff the status display
text is termination-class (contains "EXIT", or equals "KILLED") and the
log string is non-empty and differs from the exact placeholder
"No logs available"; fail-soft fetch outcomes other than empty logs
(not-found, fetch errors) produce distinct strings and hence do yield a
block. -/
theorem C8_log_block_iff (cfg : Config) (statusText : String)
    (cid : Option String) (lf : LogsFetch) :
    payloadLogsSection cfg statusText cid lf ≠ []
      ↔ ((strContains statusText "EXIT" = true ∨ statusText = "KILLED")
          ∧ payloadLogsString cfg cid lf ≠ ""
          ∧ payloadLogsString cfg cid lf ≠ "No logs available") := by
  simp only [payloadLogsSection]
  split
  · rename_i h1
    simp only [Bool.or_eq_true, decide_eq_true_eq] at h1
    split
    · rename_i h2
      simp only [Bool.and_eq_true, bne_iff_ne, ne_eq] at h2
      simp [h1, h2]
    · rename_i h2
      simp only [Bool.and_eq_true, bne_iff_ne, ne_eq] at h2
      simp only [ne_eq, not_true_eq_false, false_iff]
      tauto
  · rename_i h1
    simp only [Bool.or_eq_true, decide_eq_true_eq] at h1
    simp only [ne_eq, not_true_eq_false, false_iff]
    tauto

/-- C6: per-line log formatting is total and lossless — the loop emits
exactly one output line per input line (never dropping or raising,
being a function), every output is either the unchanged input or the
reformatted "timestamp | message" shape, a line whose truncated
timestamp fails to parse is retained unmodified, and so is a line with
no space at all. -/
theorem C6_log_format_total (lines : List String) (line : String) :
    (formatLogs lines).length = lines.length
  ∧ (formatLogLine line = line ∨
      ∃ pr t, splitFirstSpace line.data = some pr ∧
        strptimeTsZ (truncAtDot pr.1 ++ ['Z']) = some t ∧
        (formatLogLine line).data
          = strftimeHuman t ++ ' ' :: '|' :: ' ' :: pr.2)
  ∧ (∀ pr, splitFirstSpace line.data = some pr →
      strptimeTsZ (truncAtDot pr.1 ++ ['Z']) = none →
      formatLogLine line = line)
  ∧ (splitFirstSpace line.data = none → formatLogLine line = line) := by
  refine ⟨List.length_map _ _, ?_, ?_, ?_⟩
  · cases hs : splitFirstSpace line.data with
    | none => left; simp [formatLogLine, formatLogLineL, hs]
    | some pr =>
      cases ht : strptimeTsZ (truncAtDot pr.1 ++ ['Z']) with
      | none => left; simp [formatLogLine, formatLogLineL, hs, ht]
      | some t =>
        right
        exact ⟨pr, t, rfl, ht, by simp [formatLogLine, formatLogLineL, hs, ht]⟩
  · intro pr hs ht
    simp [formatLogLine, formatLogLineL, hs, ht]
  · intro hs
    simp [formatLogLine, formatLogLineL, hs]

/-- Witness for `C6_log_format_total`: a two-line tail yields two
output lines, and a line with an unparseable first token is kept
unmodified. -/
theorem C6_log_format_total_witness :
    (formatLogs ["2024-01-01T10:20:30.5Z up", "garbage x"]).length = 2
  ∧ formatLogLine "garbage x" = "garbage x" :=
  ⟨(C6_log_format_total ["2024-01-01T10:20:30.5Z up", "garbage x"]
      "garbage x").1,
   (C6_log_format_total ["2024-01-01T10:20:30.5Z up", "garbage x"]
      "garbage x").2.2.1 ("garbage".data, "x".data) (by decide) (by decide)⟩

/-- A matched literal prefixes the rest. -/
theorem expectChar_structure {c : Char} {l r : List Char}
    (h : expectChar c l = some r) : l = c :: r := by
  cases l with
  | nil => simp [expectChar] at h
  | cons x xs =>
    simp only [expectChar] at h
    split at h
    · rename_i hx
      injection h with h'
      rw [hx, h']
    · exact absurd h (by simp)

/-- The year field consumes a prefix. -/
theorem parse4digits_structure {l r : List Char} {v : Nat}
    (h : parse4digits l = some (v, r)) : ∃ p, l = p ++ r := by
  cases l with
  | nil => simp [parse4digits] at h
  | cons a l1 =>
  cases l1 with
  | nil => simp [parse4digits] at h
  | cons b l2 =>
  cases l2 with
  | nil => simp [parse4digits] at h
  | cons c l3 =>
  cases l3 with
  | nil => simp [parse4digits] at h
  | cons d rest =>
    simp only [parse4digits] at h
    split at h
    · injection h with h'
      cases h'
      exact ⟨[a, b, c, d], rfl⟩
    · exact absurd h (by simp)

/-- A bounded numeric field consumes a non-empty prefix whose last
character is a digit. -/
theorem parse2or1_structure {lo2 hi2 lo1 hi1 : Nat} {l r : List Char}
    {v : Nat} (h : parse2or1 lo2 hi2 lo1 hi1 l = some (v, r)) :
    ∃ p c, l = p ++ c :: r ∧ c.isDigit = true := by
  cases l with
  | nil => simp [parse2or1] at h
  | cons c1 l1 =>
  cases l1 with
  | nil =>
    simp only [parse2or1] at h
    split at h
    · rename_i h1
      split at h
      · injection h with h'
        cases h'
        exact ⟨[], c1, rfl, h1⟩
      · exact absurd h (by simp)
    · exact absurd h (by simp)
  | cons c2 rest =>
    simp only [parse2or1] at h
    split at h
    · rename_i h1
      split at h
      · rename_i h2
        split at h
        · injection h with h'
          cases h'
          exact ⟨[c1], c2, rfl, h2⟩
        · exact absurd h (by simp)
      · split at h
        · injection h with h'
          cases h'
          exact ⟨[], c1, rfl, h1⟩
        · exact absurd h (by simp)
    · exact absurd h (by simp)

/-- Composition of prefix-consumption facts. -/
theorem suffix_trans {l m r : List Char} (h1 : ∃ p, l = p ++ m)
    (h2 : ∃ q, m = q ++ r) : ∃ s, l = s ++ r := by
  obtain ⟨p, hp⟩ := h1
  obtain ⟨q, hq⟩ := h2
  exact ⟨p ++ q, by rw [hp, hq, List.append_assoc]⟩

/-- Any string the timestamp parser accepts ends in a digit followed by
the literal 'Z'. -/
theorem strptimeTsZ_structure {l : List Char} {t : DateTimeRec}
    (h : strptimeTsZ l = some t) :
    ∃ p c, l = p ++ [c, 'Z'] ∧ c.isDigit = true := by
  unfold strptimeTsZ at h
  cases h1 : parse4digits l with
  | none => rw [h1, Option.none_bind] at h; exact Option.noConfusion h
  | some py =>
  rw [h1] at h
  simp only [Option.some_bind] at h
  cases h2 : expectChar '-' py.2 with
  | none => rw [h2, Option.none_bind] at h; exact Option.noConfusion h
  | some r2 =>
  rw [h2] at h
  simp only [Option.some_bind] at h
  cases h3 : parse2or1 1 12 1 9 r2 with
  | none => rw [h3, Option.none_bind] at h; exact Option.noConfusion h
  | some pm =>
  rw [h3] at h
  simp only [Option.some_bind] at h
  cases h4 : expectChar '-' pm.2 with
  | none => rw [h4, Option.none_bind] at h; exact Option.noConfusion h
  | some r4 =>
  rw [h4] at h
  simp only [Option.some_bind] at h
  cases h5 : parse2or1 1 31 1 9 r4 with
  | none => rw [h5, Option.none_bind] at h; exact Option.noConfusion h
  | some pd =>
  rw [h5] at h
  simp only [Option.some_bind] at h
  cases h6 : expectChar 'T' pd.2 with
  | none => rw [h6, Option.none_bind] at h; exact Option.noConfusion h
  | some r6 =>
  rw [h6] at h
  simp only [Option.some_bind] at h
  cases h7 : parse2or1 0 23 0 9 r6 with
  | none => rw [h7, Option.none_bind] at h; exact Option.noConfusion h
  | some ph =>
  rw [h7] at h
  simp only [Option.some_bind] at h
  cases h8 : expectChar ':' ph.2 with
  | none => rw [h8, Option.none_bind] at h; exact Option.noConfusion h
  | some r8 =>
  rw [h8] at h
  simp only [Option.some_bind] at h
  cases h9 : parse2or1 0 59 0 9 r8 with
  | none => rw [h9, Option.none_bind] at h; exact Option.noConfusion h
  | some pmi =>
  rw [h9] at h
  simp only [Option.some_bind] at h
  cases h10 : expectChar ':' pmi.2 with
  | none => rw [h10, Option.none_bind] at h; exact Option.noConfusion h
  | some r10 =>
  rw [h10] at h
  simp only [Option.some_bind] at h
  cases h11 : parse2or1 0 61 0 9 r10 with
  | none => rw [h11, Option.none_bind] at h; exact Option.noConfusion h
  | some ps =>
  rw [h11] at h
  simp only [Option.some_bind] at h
  cases h12 : expectChar 'Z' ps.2 with
  | none => rw [h12, Option.none_bind] at h; exact Option.noConfusion h
  | some rEnd =>
  rw [h12] at h
  simp only [Option.some_bind] at h
  cases rEnd with
  | cons y ys => exact Option.noConfusion h
  | nil =>
    have hsecond := parse2or1_structure h11
    obtain ⟨p, c, hpc, hdig⟩ := hsecond
    have hz : ps.2 = ['Z'] := by
      rw [expectChar_structure h12]
    rw [hz] at hpc
    have hsuf : ∃ s, l = s ++ r10 := by
      refine suffix_trans (parse4digits_structure h1) ?_
      refine suffix_trans ⟨['-'], expectChar_structure h2⟩ ?_
      obtain ⟨p3, c3, hl3, _⟩ := parse2or1_structure h3
      refine suffix_trans ⟨p3 ++ [c3], by
        rw [List.append_assoc]; exact hl3⟩ ?_
      refine suffix_trans ⟨['-'], expectChar_structure h4⟩ ?_
      obtain ⟨p5, c5, hl5, _⟩ := parse2or1_structure h5
      refine suffix_trans ⟨p5 ++ [c5], by
        rw [List.append_assoc]; exact hl5⟩ ?_
      refine suffix_trans ⟨['T'], expectChar_structure h6⟩ ?_
      obtain ⟨p7, c7, hl7, _⟩ := parse2or1_structure h7
      refine suffix_trans ⟨p7 ++ [c7], by
        rw [List.append_assoc]; exact hl7⟩ ?_
      refine suffix_trans ⟨[':'], expectChar_structure h8⟩ ?_
      obtain ⟨p9, c9, hl9, _⟩ := parse2or1_structure h9
      refine suffix_trans ⟨p9 ++ [c9], by
        rw [List.append_assoc]; exact hl9⟩ ?_
      exact ⟨[':'], expectChar_structure h10⟩
    obtain ⟨s, hs⟩ := hsuf
    refine ⟨s ++ p, c, ?_, hdig⟩
    rw [hs, hpc, List.append_assoc]

/-- No string ending in two 'Z' characters parses: the parser demands a
digit right before the final 'Z'. -/
theorem strptimeTsZ_ends_ZZ_none (l : List Char) :
    strptimeTsZ (l ++ ['Z', 'Z']) = none := by
  cases h : strptimeTsZ (l ++ ['Z', 'Z']) with
  | none => rfl
  | some t =>
    obtain ⟨p, c, hpc, hdig⟩ := strptimeTsZ_structure h
    have hrev := congrArg List.reverse hpc
    rw [List.reverse_append, List.reverse_append,
      show (['Z', 'Z'] : List Char).reverse = ['Z', 'Z'] from rfl,
      show ([c, 'Z'] : List Char).reverse = ['Z', c] from rfl] at hrev
    simp only [List.cons_append, List.nil_append, List.cons.injEq] at hrev
    obtain ⟨-, hc, -⟩ := hrev
    rw [← hc] at hdig
    exact absurd hdig (by decide)

/-- C10 counterexample: a line whose first token is a whole-second
timestamp *without* the trailing 'Z' (and hence without any '.') is
reformatted, not retained: the unconditionally appended 'Z' completes
it into a parseable timestamp. -/
theorem C10_whole_second_reformat_counterexample :
    ("2024-01-01T00:00:00".data.all (fun c => c != '.')) = true
  ∧ splitFirstSpace ("2024-01-01T00:00:00 hello").data
      = some ("2024-01-01T00:00:00".data, "hello".data)
  ∧ formatLogLine "2024-01-01T00:00:00 hello"
      = "2024-01-01 00:00:00 | hello"
  ∧ "2024-01-01 00:00:00 | hello" ≠ "2024-01-01T00:00:00 hello" := by
  exact ⟨by decide, by decide, rfl, by decide⟩

/-- C10 amended: a line whose first space-separated token contains no
'.' and ends in 'Z' — in particular every well-formed whole-second
RFC3339 'Z' timestamp — is output unchanged, because the formatter
unconditionally appends another 'Z' after truncating at the first '.'
and no string ending in "ZZ" parses; a no-dot token is reformatted
exactly when the token with 'Z' appended parses, which the Z-less
whole-second form does. -/
theorem C10_no_dot_z_token_unchanged (line : String) (ts' msg : List Char)
    (h1 : splitFirstSpace line.data = some (ts' ++ ['Z'], msg))
    (h2 : ∀ c ∈ ts' ++ ['Z'], c ≠ '.') :
    formatLogLine line = line := by
  have htw : (ts' ++ ['Z']).takeWhile (fun c => c != '.') = ts' ++ ['Z'] := by
    rw [List.takeWhile_eq_self_iff]
    intro c hc
    simpa using h2 c hc
  have hz : strptimeTsZ (truncAtDot (ts' ++ ['Z']) ++ ['Z']) = none := by
    rw [truncAtDot, htw, List.append_assoc]
    exact strptimeTsZ_ends_ZZ_none ts'
  simp [formatLogLine, formatLogLineL, h1, hz]

/-- Witness for `C10_no_dot_z_token_unchanged`: a well-formed
whole-second 'Z'-suffixed timestamp line passes through unchanged. -/
theorem C10_no_dot_z_token_unchanged_witness :
    formatLogLine "2024-01-01T00:00:00Z hello"
      = "2024-01-01T00:00:00Z hello" :=
  C10_no_dot_z_token_unchanged "2024-01-01T00:00:00Z hello"
    "2024-01-01T00:00:00".data "hello".data (by decide) (by decide)

end Harbinger
